import Mathlib

/-!
Verification of the pH-controller device firmware (Python repository
`ph_controller`) against its natural-language specification.

The development shallowly embeds the parts of the code the claims are
about:
 * `src/src/instruments/controllers.py` — `PHController` (pump decision,
   pump timing, actuation, soft-failing pH reads) and `SensorManager`
   (tick loop, start/pause/stop lifecycle);
 * `src/src/instruments/experiment.py` — `ExperimentHandler` lifecycle;
 * `src/src/config/config_handler.py` — `DeviceConfigHandler` CRUD with
   forbidden-field stripping;
 * `src/src/config/validation_handler.py` — `Validator` predicates.

Python dicts/JSON payloads are modelled as association lists of a
`JValue` type; Python exceptions are modelled with `Except PyErr`;
Python `float` is modelled as `ℚ` and Python `int` as `ℤ`.
-/

namespace PhCtrl

/-- JSON-like Python values as they occur in the device configuration and
command payloads.  Python `int` and `float` are kept as distinct
constructors because `isinstance(x, int)` distinguishes them. -/
inductive JValue where
  | str : String → JValue
  | int : Int → JValue
  | float : ℚ → JValue
  | bool : Bool → JValue
  | null : JValue
  | arr : List JValue → JValue
  | obj : List (String × JValue) → JValue

/-- A Python dict with string keys (insertion-ordered association list). -/
abbrev Dict := List (String × JValue)

/-- Numeric value of a Python object, if it is numeric.  Python `bool` is a
subtype of `int`, so `True`/`False` compare equal to `1`/`0`. -/
def toNum : JValue → Option ℚ
  | .int n => some (n : ℚ)
  | .float q => some q
  | .bool b => some (if b then 1 else 0)
  | _ => none

/-- Python `==` on JSON-like values: numeric values compare by value across
`int`/`float`/`bool`, strings by content, lists elementwise. -/
def jeq : JValue → JValue → Bool
  | .str a, .str b => a == b
  | .null, .null => true
  | .arr [], .arr [] => true
  | .arr (x :: xs), .arr (y :: ys) => jeq x y && jeq (.arr xs) (.arr ys)
  | .obj [], .obj [] => true
  | .obj ((k, v) :: fs), .obj ((k2, v2) :: gs) =>
      k == k2 && jeq v v2 && jeq (.obj fs) (.obj gs)
  | a, b =>
      match toNum a, toNum b with
      | some x, some y => x == y
      | _, _ => false

/-- Python exceptions raised by the modelled code paths. -/
inductive PyErr where
  | keyError : PyErr
  | typeError : PyErr
  | valueError : String → PyErr
deriving DecidableEq

/-- `d[key]` lookup (first binding wins; Python dicts have unique keys). -/
def dictLookup : Dict → String → Option JValue
  | [], _ => none
  | (k, v) :: rest, key => if k == key then some v else dictLookup rest key

/-- Python `key in d`. -/
def dictContains (d : Dict) (k : String) : Bool :=
  (dictLookup d k).isSome

/-- Python `d.pop(key, None)`: removes the binding for `key` if present. -/
def dictPop : Dict → String → Dict
  | [], _ => []
  | (k, v) :: rest, key =>
      if k == key then dictPop rest key else (k, v) :: dictPop rest key

/-- Python `d[key] = val`: replaces the existing binding in place, or
appends a new one. -/
def dictInsert : Dict → String → JValue → Dict
  | [], key, val => [(key, val)]
  | (k, v) :: rest, key, val =>
      if k == key then (k, val) :: rest else (k, v) :: dictInsert rest key val

/-- Python `{**a, **b}`: start from `a` and assign every binding of `b`. -/
def dictMerge (a b : Dict) : Dict :=
  b.foldl (fun acc kv => dictInsert acc kv.1 kv.2) a

/-! ## `PHController` (src/src/instruments/controllers.py) -/

/-- State of a `PHController` after `__init__` coerced its numeric
arguments with `float(...)`. -/
structure PHController where
  target_ph : ℚ
  max_pump_time : ℚ
  margin : ℚ
  mode : String
  alkaline_pump_pin : Int
  acidic_pump_pin : Int

/-- `PHController.read_ph`: returns the communicator's reading, or — when
the read raises — logs the error, emits an error log to the client and
falls off the end of the function, returning `None`.  The hardware read
outcome is supplied as an oracle argument. -/
def read_ph (outcome : Except Unit ℚ) : Option ℚ :=
  match outcome with
  | .ok v => some v
  | .error _ => none

/-- `PHController.calculate_pump_time`. -/
def calculate_pump_time (ctl : PHController) (current_ph : ℚ) : ℚ :=
  let ph_difference := |ctl.target_ph - current_ph|
  min (ph_difference * 2) ctl.max_pump_time

/-- `PHController.determine_pump`: selects `("alkaline", pin)` or
`("acidic", pin)`, or returns `None` (bare `return`) when the mode does
not allow the needed correction direction. -/
def determine_pump (ctl : PHController) (current_ph : ℚ) : Option (String × Int) :=
  let is_acidic : Bool := decide (current_ph < ctl.target_ph)
  let define_base_pump : Bool := ctl.mode == "alkaline" || ctl.mode == "auto"
  let define_acid_pump : Bool := ctl.mode == "acidic" || ctl.mode == "auto"
  if is_acidic && define_base_pump then
    some ("alkaline", ctl.alkaline_pump_pin)
  else if !is_acidic && define_acid_pump then
    some ("acidic", ctl.acidic_pump_pin)
  else
    none

/-- `PHController.adjust_ph`.  Returns the actuation it dispatches
(`some (pump, pin, pump_time)` handed to the actuation thread), `none`
when no actuation happens, or the Python exception it raises:
 * a failed read makes `read_ph` return `None`, and the chained comparison
   `target - margin <= None` raises `TypeError`;
 * when `determine_pump` returns `None`, the tuple unpacking
   `pump, pump_pin = None` raises `TypeError` (the `if not pump_pin`
   guard below it is only reached after a successful unpack, where it
   tests integer falsiness, i.e. pin `0`). -/
def adjust_ph (ctl : PHController) (read_outcome : Except Unit ℚ) :
    Except PyErr (Option (String × Int × ℚ)) :=
  match read_ph read_outcome with
  | none => .error .typeError
  | some current_ph =>
    if ctl.target_ph - ctl.margin ≤ current_ph ∧ current_ph ≤ ctl.target_ph + ctl.margin then
      .ok none
    else
      match determine_pump ctl current_ph with
      | none => .error .typeError
      | some (pump, pump_pin) =>
        if pump_pin == 0 then .ok none
        else .ok (some (pump, pump_pin, calculate_pump_time ctl current_ph))

/-- The pump chosen by a completed `adjust_ph` call, if any. -/
def pickedPump : Except PyErr (Option (String × Int × ℚ)) → Option String
  | .ok (some (pump, _, _)) => some pump
  | _ => none

/-! `PHController.activate_pump` body.  The `with gpio_lock:` block holds
`gpio_write(pin, 0)`, `time.sleep(pump_time)`, `gpio_write(pin, 1)`; the
context manager releases the lock on exit but performs no pin cleanup. -/

/-- One statement of the `with` block of `activate_pump`. -/
inductive PumpAction where
  | write : Int → PumpAction
  | sleep : PumpAction

/-- The statements inside `with gpio_lock:` in `activate_pump`, in source
order. -/
def activate_pump_body : List PumpAction := [.write 0, .sleep, .write 1]

/-- Runs pump actions sequentially over the pin level; a raising `sleep`
aborts the remaining statements (there is no `try/finally`), returning
the pin level at that point together with the propagated-exception flag. -/
def runPumpActions (sleepRaises : Bool) : Int → List PumpAction → Int × Bool
  | level, [] => (level, false)
  | _, .write l :: rest => runPumpActions sleepRaises l rest
  | level, .sleep :: rest =>
      if sleepRaises then (level, true) else runPumpActions sleepRaises level rest

/-- `PHController.activate_pump`: final pin level and whether an exception
propagated out of the call, given the initial pin level and whether the
sleep raises. -/
def activate_pump (sleepRaises : Bool) (initialLevel : Int) : Int × Bool :=
  runPumpActions sleepRaises initialLevel activate_pump_body

/-! ## `SensorManager` (src/src/instruments/controllers.py) -/

/-- One entry of `SensorManager.controllers`: the location's
`phMonitorFrequency` (read through `int(...)` each tick) and the wrapped
`PHController`. -/
structure ControllerEntry where
  phMonitorFrequency : Int
  controler : PHController

/-- State of a `SensorManager` relevant to the lifecycle claims.  The
`dataAquisitionInterval` attribute does not exist until the first
`start` call (`hasattr` check), hence `Option`. -/
structure SensorManager where
  is_running : Bool
  controllers : List ControllerEntry
  dataAquisitionInterval : Option Int

/-- A fresh `SensorManager` (after `__init__`). -/
def SensorManager.init : SensorManager :=
  { is_running := false, controllers := [], dataAquisitionInterval := none }

/-- `SensorManager.start`: sets `dataAquisitionInterval` only when the
attribute is not yet set (`if not hasattr(self, "dataAquisitionInterval")`),
then marks the manager running and spawns the tick thread. -/
def SensorManager.start (sm : SensorManager) (interval : Int) : SensorManager :=
  { sm with
    dataAquisitionInterval :=
      if sm.dataAquisitionInterval.isSome then sm.dataAquisitionInterval else some interval,
    is_running := true }

/-- `SensorManager.pause_controllers`. -/
def SensorManager.pause_controllers (sm : SensorManager) : SensorManager :=
  { sm with is_running := false }

/-- `SensorManager.stop_controllers`: stops the loop and clears the
controller list; it does not touch `dataAquisitionInterval`. -/
def SensorManager.stop_controllers (sm : SensorManager) : SensorManager :=
  { sm with is_running := false, controllers := [] }

/-- Lifecycle operations invoked on the shared `SensorManager` by
`ExperimentHandler` (`start`/`resume` call `start`, `pause` calls
`pause_controllers`, `stop` calls `stop_controllers`). -/
inductive SMOp where
  | start : Int → SMOp
  | pause : SMOp
  | stop : SMOp

/-- Apply one lifecycle operation. -/
def SensorManager.applyOp (sm : SensorManager) : SMOp → SensorManager
  | .start i => sm.start i
  | .pause => sm.pause_controllers
  | .stop => sm.stop_controllers

/-- Apply a sequence of lifecycle operations. -/
def SensorManager.runOps (sm : SensorManager) (ops : List SMOp) : SensorManager :=
  ops.foldl SensorManager.applyOp sm

/-- The body of one `while` iteration of `SensorManager.run_controllers`
at elapsed time `t`: for each controller, if `t % dataAquisitionInterval == 0`
the data-path read happens (its result — `None` on a failed read — is
appended to the batch), and if `t % phMonitorFrequency == 0` the
controller's `adjust_ph` runs (whose exceptions propagate out of the
loop body into the surrounding `try`, which logs, closes the GPIO chip
and leaves the loop: monitoring is aborted).  Each controller's two
potential hardware reads this tick are supplied as oracles. -/
def run_controllers_tick (interval t : Int) :
    List (ControllerEntry × Except Unit ℚ × Except Unit ℚ) →
    Except PyErr (List (Option ℚ))
  | [] => .ok []
  | (entry, readData, readAdjust) :: rest =>
    let batchHead : List (Option ℚ) :=
      if t % interval == 0 then [read_ph readData] else []
    if t % entry.phMonitorFrequency == 0 then
      match adjust_ph entry.controler readAdjust with
      | .error e => .error e
      | .ok _ =>
        match run_controllers_tick interval t rest with
        | .error e => .error e
        | .ok batch => .ok (batchHead ++ batch)
    else
      match run_controllers_tick interval t rest with
      | .error e => .error e
      | .ok batch => .ok (batchHead ++ batch)

/-! ## `ExperimentHandler` (src/src/instruments/experiment.py) -/

/-- State of an `ExperimentHandler`.  `experiment_data` is the Python dict
of the same name; `device_id` is the module-level `device["id"]`. -/
structure ExperimentHandler where
  device_id : JValue
  experiment_data : Dict
  timer_running : Bool
  sensor_manager : SensorManager
  backup_active : Bool

/-- The dict assigned by `ExperimentHandler.reset_experimental_data`. -/
def initial_experiment_data (deviceID : JValue) : Dict :=
  [("duration", .int 0), ("deviceID", deviceID), ("projectID", .null),
   ("dataAquisitionInterval", .null), ("configurationID", .null),
   ("userID", .null), ("status", .str "ready"), ("locations", .arr []),
   ("logs", .arr []), ("createdAt", .null)]

/-- `ExperimentHandler.reset_experimental_data`. -/
def ExperimentHandler.reset_experimental_data (h : ExperimentHandler) : ExperimentHandler :=
  { h with experiment_data := initial_experiment_data h.device_id }

/-- `ExperimentHandler.stop_experiment`: `timer.stop()`,
`sensor_manager.stop_controllers()`, `backup_handler.cleanup_experiment()`,
`reset_experimental_data()`. -/
def ExperimentHandler.stop_experiment (h : ExperimentHandler) : ExperimentHandler :=
  ({ h with
      timer_running := false,
      sensor_manager := h.sensor_manager.stop_controllers,
      backup_active := false }).reset_experimental_data

/-! ## `Validator` (src/src/config/validation_handler.py) -/

/-- Python `isinstance(x, str)` on an optional field. -/
def isStrField : Option JValue → Bool
  | some (.str _) => true
  | _ => false

/-- Python `isinstance(x, int)` on an optional field (the `bool` subtype
of `int` is not modelled; no claim exercises boolean payload fields). -/
def isIntField : Option JValue → Bool
  | some (.int _) => true
  | _ => false

/-- Python `isinstance(x, (int, float))` on an optional field. -/
def isNumField : Option JValue → Bool
  | some (.int _) => true
  | some (.float _) => true
  | _ => false

/-- The numeric value of a numeric field (`0` as a don't-care default for
non-numeric shapes, which the type checks reject first). -/
def numField : Option JValue → ℚ
  | some (.int n) => (n : ℚ)
  | some (.float q) => q
  | _ => 0

/-- `Validator._validate_sensor`: required fields with their types, then
the mode enumeration and the numeric range rules. -/
def validate_sensor (s : Dict) : Bool :=
  isStrField (dictLookup s "id") &&
  isStrField (dictLookup s "mode") &&
  isNumField (dictLookup s "margin") &&
  isNumField (dictLookup s "maxValveTimeOpen") &&
  isNumField (dictLookup s "targetPh") &&
  isIntField (dictLookup s "probePort") &&
  isNumField (dictLookup s "checkInterval") &&
  isStrField (dictLookup s "createdAt") &&
  (match dictLookup s "mode" with
   | some (.str m) => m == "acidic" || m == "alkaline" || m == "auto"
   | _ => false) &&
  decide (0 < numField (dictLookup s "margin") ∧ numField (dictLookup s "margin") ≤ 1) &&
  decide (1 < numField (dictLookup s "maxValveTimeOpen") ∧
          numField (dictLookup s "maxValveTimeOpen") ≤ 300) &&
  decide (1 ≤ numField (dictLookup s "targetPh") ∧ numField (dictLookup s "targetPh") ≤ 14)

/-- `Validator._validate_location`: field presence, `sensors` a list, all
sensors valid.  (In Python a non-dict sensor element raises inside the
comprehension; it is folded into `false` here — both are non-acceptance
and no claim distinguishes them.) -/
def validate_location (loc : Dict) : Bool :=
  dictContains loc "id" && dictContains loc "name" &&
  dictContains loc "createdAt" && dictContains loc "sensors" &&
  (match dictLookup loc "sensors" with
   | some (.arr sensors) =>
     sensors.all (fun sv => match sv with | .obj s => validate_sensor s | _ => false)
   | _ => false)

/-- `Validator._validate_device_configuration`: field presence and all
locations valid (non-list `locations` / non-dict elements raise in
Python; folded into `false`, see `validate_location`). -/
def validate_device_configuration (dc : Dict) : Bool :=
  dictContains dc "id" && dictContains dc "name" &&
  dictContains dc "createdAt" && dictContains dc "locations" &&
  (match dictLookup dc "locations" with
   | some (.arr locs) =>
     locs.all (fun lv => match lv with | .obj l => validate_location l | _ => false)
   | _ => false)

/-! ## `DeviceConfigHandler` (src/src/config/config_handler.py) -/

/-- `_forbidden_keys_info` (device update). -/
def forbidden_keys_info : List String := ["id", "createdAt", "status", "configurations"]

/-- `_forbidden_keys_configuration_info`. -/
def forbidden_keys_configuration_info : List String := ["id", "createdAt", "locations"]

/-- `_forbidden_keys_location_info`. -/
def forbidden_keys_location_info : List String := ["id", "createdAt", "sensors"]

/-- `_forbidden_keys_sensor_info`. -/
def forbidden_keys_sensor_info : List String := ["id", "createdAt"]

/-- `DeviceConfigHandler.parse_updated_info`: pops every forbidden key
present in the payload (and, in Python, mutates the payload in place). -/
def parse_updated_info (info : Dict) (forbidden_keys : List String) : Dict :=
  forbidden_keys.foldl (fun d k => dictPop d k) info

/-- `obj[key]` on a JSON value: `TypeError` when not a dict, `KeyError`
when the key is missing. -/
def getObjField (v : JValue) (k : String) : Except PyErr JValue :=
  match v with
  | .obj d =>
    match dictLookup d k with
    | some x => .ok x
    | none => .error .keyError
  | _ => .error .typeError

/-- `d[key]` with Python's `KeyError` on absence. -/
def getField (d : Dict) (k : String) : Except PyErr JValue :=
  match dictLookup d k with
  | some v => .ok v
  | none => .error .keyError

/-- Iterating a JSON value as a list (`TypeError` when it is not one). -/
def getArr : JValue → Except PyErr (List JValue)
  | .arr xs => .ok xs
  | _ => .error .typeError

/-- The `for i, x in enumerate(xs): if x["id"] == idv: xs[i] = f(x)` loop
shared by the nested config CRUD operations: every element must be a
dict with an `"id"` key (else `TypeError`/`KeyError`), and each element
whose id equals `idv` is replaced by `f` applied to it. -/
def mapMatching (idv : JValue) (f : Dict → Except PyErr Dict) :
    List JValue → Except PyErr (List JValue)
  | [] => .ok []
  | x :: rest =>
    match x with
    | .obj d =>
      match dictLookup d "id" with
      | none => .error .keyError
      | some xid =>
        match (if jeq xid idv then (f d).map JValue.obj else .ok x) with
        | .error e => .error e
        | .ok x2 =>
          match mapMatching idv f rest with
          | .error e => .error e
          | .ok rest2 => .ok (x2 :: rest2)
    | _ => .error .typeError

/-- `DeviceConfigHandler.update_device_info`: merge the stripped payload
over the device record (then persist). -/
def update_device_info (cfg info : Dict) : Dict :=
  dictMerge cfg (parse_updated_info info forbidden_keys_info)

/-- Loop body of `update_device_configuration_info`.  Faithful to the
Python quirk that `parse_updated_info` mutates `info` in place inside the
loop: once a configuration matched, the payload has lost its `"id"` key,
so looking it up on a later iteration raises `KeyError`. -/
def udci_go : List JValue → Dict → Except PyErr (List JValue)
  | [], _ => .ok []
  | c :: rest, info =>
    match c with
    | .obj conf =>
      match dictLookup conf "id" with
      | none => .error .keyError
      | some cid =>
        match dictLookup info "id" with
        | none => .error .keyError
        | some iid =>
          if jeq cid iid then
            let parsedInfo := parse_updated_info info forbidden_keys_configuration_info
            match udci_go rest parsedInfo with
            | .error e => .error e
            | .ok rest2 => .ok (.obj (dictMerge conf parsedInfo) :: rest2)
          else
            match udci_go rest info with
            | .error e => .error e
            | .ok rest2 => .ok (c :: rest2)
    | _ => .error .typeError

/-- The `self.x[key]` access / iterate / write-back shape shared by all
nested CRUD operations: fetch the list stored under `key` (raising
`KeyError`/`TypeError` as Python would), transform it with `g`, and
store the result back under `key` (the Python code mutates the list
object in place, which leaves it stored under the same key). -/
def withArrField (d : Dict) (k : String) (g : List JValue → Except PyErr (List JValue)) :
    Except PyErr Dict :=
  match getField d k with
  | .error e => .error e
  | .ok v =>
    match getArr v with
    | .error e => .error e
    | .ok xs =>
      match g xs with
      | .error e => .error e
      | .ok xs2 => .ok (dictInsert d k (.arr xs2))

/-- `DeviceConfigHandler.update_device_configuration_info`. -/
def update_device_configuration_info (cfg info : Dict) : Except PyErr Dict :=
  withArrField cfg "configurations" (fun confs => udci_go confs info)

/-- Inner loop of `update_location_info`: merge the stripped payload over
every location of `conf` whose id equals `locationID`. -/
def update_location_in_conf (parsedInfo : Dict) (locationID : JValue) (conf : Dict) :
    Except PyErr Dict :=
  withArrField conf "locations"
    (mapMatching locationID (fun loc => .ok (dictMerge loc parsedInfo)))

/-- `DeviceConfigHandler.update_location_info`: strip the payload once,
then merge it over every location matching `locationID` inside every
configuration matching `configurationID`. -/
def update_location_info (cfg data : Dict) (configurationID locationID : JValue) :
    Except PyErr Dict :=
  let parsedInfo := parse_updated_info data forbidden_keys_location_info
  withArrField cfg "configurations"
    (mapMatching configurationID (update_location_in_conf parsedInfo locationID))

/-- Innermost loop of `update_sensor_info`: merge the stripped payload
over every sensor of `loc` whose id equals `sensorID`. -/
def update_sensor_in_loc (parsedInfo : Dict) (sensorID : JValue) (loc : Dict) :
    Except PyErr Dict :=
  withArrField loc "sensors"
    (mapMatching sensorID (fun sen => .ok (dictMerge sen parsedInfo)))

/-- Middle loop of `update_sensor_info`. -/
def update_sensor_in_conf (parsedInfo : Dict) (locationID sensorID : JValue) (conf : Dict) :
    Except PyErr Dict :=
  withArrField conf "locations"
    (mapMatching locationID (update_sensor_in_loc parsedInfo sensorID))

/-- `DeviceConfigHandler.update_sensor_info`: validate the payload
(`report_error` raises `ValueError` when invalid), strip it, then merge
it over every matching sensor. -/
def update_sensor_info (cfg data : Dict) (configurationID locationID sensorID : JValue) :
    Except PyErr Dict :=
  if validate_sensor data = false then
    .error (.valueError "The sensor information submited does not contain the correct fields")
  else
    let parsedInfo := parse_updated_info data forbidden_keys_sensor_info
    withArrField cfg "configurations"
      (mapMatching configurationID (update_sensor_in_conf parsedInfo locationID sensorID))

/-- `DeviceConfigHandler.add_device_configuration`: `report_error` (which
raises `ValueError`) when the device already holds 3 configurations or
when validation fails; otherwise append and persist. -/
def add_device_configuration (cfg data : Dict) : Except PyErr Dict :=
  withArrField cfg "configurations" (fun confs =>
    if confs.length == 3 then
      .error (.valueError "You reached the maximum number of configurations on this device")
    else if validate_device_configuration data = false then
      .error (.valueError "The configuration information submited does not contain the correct fields")
    else
      .ok (confs ++ [.obj data]))

/-- Python `int(x)` truncates toward zero on numerics.  (`int` of a
numeric string is not modelled; no claim exercises string payloads
there.) -/
def pyToInt : JValue → Except PyErr Int
  | .int n => .ok n
  | .float q => .ok (if 0 ≤ q then ⌊q⌋ else ⌈q⌉)
  | .bool b => .ok (if b then 1 else 0)
  | _ => .error .typeError

/-- Innermost loop of `add_sensor`: append the converted record to the
sensor list of `loc`. -/
def add_sensor_in_loc (data2 : Dict) (loc : Dict) : Except PyErr Dict :=
  withArrField loc "sensors" (fun sens => .ok (sens ++ [.obj data2]))

/-- Middle loop of `add_sensor`. -/
def add_sensor_in_conf (data2 : Dict) (locationID : JValue) (conf : Dict) :
    Except PyErr Dict :=
  withArrField conf "locations" (mapMatching locationID (add_sensor_in_loc data2))

/-- `DeviceConfigHandler.add_sensor`: replaces `targetPh` by
`int(data["targetPh"])` (the `{**data, "targetPh": int(...)}` literal),
validates the resulting record (`report_error` raises on failure), then
appends it to the sensor list of every matching location of every
matching configuration. -/
def add_sensor (cfg data : Dict) (configurationID locationID : JValue) :
    Except PyErr Dict :=
  match getField data "targetPh" with
  | .error e => .error e
  | .ok tv =>
    match pyToInt tv with
    | .error e => .error e
    | .ok n =>
      let data2 := dictMerge data [("targetPh", .int n)]
      if validate_sensor data2 = false then
        .error (.valueError "The sensor information submited does not contain the correct fields")
      else
        withArrField cfg "configurations"
          (mapMatching configurationID (add_sensor_in_conf data2 locationID))

/-! ## Predicates used by the claim statements -/

/-- Field lookup on an object value. -/
def objLookup : JValue → String → Option JValue
  | .obj d, k => dictLookup d k
  | _, _ => none

/-- The record's `id` and `createdAt` are unchanged between two values. -/
def idFieldsPreserved (old new : JValue) : Prop :=
  objLookup new "id" = objLookup old "id" ∧
  objLookup new "createdAt" = objLookup old "createdAt"

/-- The child lists stored under `childKey` are elementwise related by
`R`. -/
def childListPreserved (childKey : String) (R : JValue → JValue → Prop)
    (old new : JValue) : Prop :=
  ∀ xs ys, objLookup old childKey = some (.arr xs) →
    objLookup new childKey = some (.arr ys) → List.Forall₂ R xs ys

/-- The two device records hold `configurations` lists elementwise
related by `R`. -/
def configurationsPreserved (R : JValue → JValue → Prop) (oldCfg newCfg : Dict) : Prop :=
  ∃ xs ys, dictLookup oldCfg "configurations" = some (.arr xs) ∧
    dictLookup newCfg "configurations" = some (.arr ys) ∧ List.Forall₂ R xs ys

/-- The location `l2` is `l` with the record `data2` appended to its
sensor list (or untouched). -/
def sensorAppended (data2 : Dict) (l l2 : JValue) : Prop :=
  l2 = l ∨ ∃ ss, objLookup l "sensors" = some (.arr ss) ∧
    objLookup l2 "sensors" = some (.arr (ss ++ [.obj data2]))

/-- The configuration `c2` is `c` with `data2` appended to the sensor
list of some of its locations (or untouched). -/
def confSensorAppended (data2 : Dict) (c c2 : JValue) : Prop :=
  c2 = c ∨ ∃ ls ls2, objLookup c "locations" = some (.arr ls) ∧
    objLookup c2 "locations" = some (.arr ls2) ∧
    List.Forall₂ (sensorAppended data2) ls ls2

/-- Result of a fallible config operation, with a fallback for the error
case (used to state closed witness evaluations). -/
def okOr (e : Except PyErr Dict) (d : Dict) : Dict :=
  match e with
  | .ok x => x
  | .error _ => d

/-- The `configurations` list of a device record (empty fallback). -/
def configsOf (d : Dict) : List JValue :=
  match dictLookup d "configurations" with
  | some (.arr xs) => xs
  | _ => []

/-! ## Concrete states used by evaluation theorems and witnesses -/

/-- An auto-mode controller: target pH 7, max pump time 30 s, margin 0.1,
pins 11 (alkaline) / 9 (acidic) as mapped for input `i1`. -/
def ctlAuto : PHController :=
  { target_ph := 7, max_pump_time := 30, margin := 1/10, mode := "auto",
    alkaline_pump_pin := 11, acidic_pump_pin := 9 }

/-- An acidic-mode controller with the same numeric configuration. -/
def ctlAcidic : PHController :=
  { target_ph := 7, max_pump_time := 30, margin := 1/10, mode := "acidic",
    alkaline_pump_pin := 11, acidic_pump_pin := 9 }

/-- A scheduler entry for `ctlAuto` with `phMonitorFrequency = 3`. -/
def entryAuto : ControllerEntry := { phMonitorFrequency := 3, controler := ctlAuto }

/-- A stored sensor record (passes `validate_sensor`). -/
def senW : Dict :=
  [("id", .str "s1"), ("mode", .str "auto"), ("margin", .int 1),
   ("maxValveTimeOpen", .int 30), ("targetPh", .int 7), ("probePort", .int 0),
   ("checkInterval", .int 5), ("createdAt", .str "t3")]

/-- A stored location record. -/
def locW : Dict :=
  [("id", .str "l1"), ("name", .str "reactor"), ("createdAt", .str "t2"),
   ("sensors", .arr [.obj senW])]

/-- A stored device-configuration record. -/
def confW : Dict :=
  [("id", .str "c1"), ("name", .str "conf"), ("createdAt", .str "t1"),
   ("locations", .arr [.obj locW])]

/-- A stored device record with one configuration. -/
def devW : Dict :=
  [("id", .str "dev1"), ("name", .str "pH Monitor Device"),
   ("createdAt", .str "t0"), ("status", .str "ready"),
   ("configurations", .arr [.obj confW])]

/-- A device record that already holds three configurations. -/
def dev3W : Dict :=
  [("id", .str "dev3"), ("name", .str "pH Monitor Device"),
   ("createdAt", .str "t0"), ("status", .str "ready"),
   ("configurations", .arr [.obj confW, .obj confW, .obj confW])]

/-- A device-update payload carrying the forbidden `id`/`createdAt`. -/
def infoDevW : Dict :=
  [("id", .str "evil"), ("createdAt", .str "evil"), ("name", .str "renamed")]

/-- A configuration-update payload (its `id` selects `confW`). -/
def infoConfW : Dict :=
  [("id", .str "c1"), ("createdAt", .str "evil"), ("name", .str "renamed")]

/-- A location-update payload carrying forbidden fields. -/
def infoLocW : Dict :=
  [("id", .str "evil"), ("createdAt", .str "evil"), ("name", .str "renamed")]

/-- A sensor-update payload (passes `validate_sensor`, carries forbidden
fields). -/
def infoSenW : Dict :=
  [("id", .str "evil"), ("mode", .str "acidic"), ("margin", .int 1),
   ("maxValveTimeOpen", .int 25), ("targetPh", .int 6), ("probePort", .int 1),
   ("checkInterval", .int 4), ("createdAt", .str "evil")]

/-- A fresh, valid device-configuration payload with no locations. -/
def confNewW : Dict :=
  [("id", .str "c9"), ("name", .str "newconf"), ("createdAt", .str "t9"),
   ("locations", .arr [])]

/-- A sensor-create payload whose `targetPh` is the non-integer 7.5. -/
def senFracW : Dict :=
  [("id", .str "s2"), ("mode", .str "alkaline"), ("margin", .int 1),
   ("maxValveTimeOpen", .int 30), ("targetPh", .float (15/2)), ("probePort", .int 2),
   ("checkInterval", .int 5), ("createdAt", .str "t4")]

/-! ## Dictionary lemmas -/

theorem dictLookup_dictPop_self (d : Dict) (k : String) :
    dictLookup (dictPop d k) k = none := by
  induction d with
  | nil => rfl
  | cons kv rest ih =>
    obtain ⟨k1, v1⟩ := kv
    by_cases h : k1 = k
    · simpa [dictPop, h] using ih
    · simpa [dictPop, dictLookup, h] using ih

theorem dictLookup_dictPop_ne (d : Dict) (key k : String) (h : k ≠ key) :
    dictLookup (dictPop d key) k = dictLookup d k := by
  induction d with
  | nil => rfl
  | cons kv rest ih =>
    obtain ⟨k1, v1⟩ := kv
    by_cases h1 : k1 = key
    · have h2 : (k1 == k) = false := beq_eq_false_iff_ne.mpr (fun he => h (he ▸ h1))
      simp [dictPop, dictLookup, h1, h2, Ne.symm h, ih]
    · simp [dictPop, dictLookup, h1, ih]

theorem dictLookup_dictInsert_self (d : Dict) (key : String) (v : JValue) :
    dictLookup (dictInsert d key v) key = some v := by
  induction d with
  | nil => simp [dictInsert, dictLookup]
  | cons kv rest ih =>
    obtain ⟨k1, v1⟩ := kv
    by_cases h1 : k1 = key
    · simp [dictInsert, dictLookup, h1]
    · simp [dictInsert, dictLookup, h1, ih]

theorem dictLookup_dictInsert_ne (d : Dict) (key k : String) (v : JValue) (h : k ≠ key) :
    dictLookup (dictInsert d key v) k = dictLookup d k := by
  induction d with
  | nil =>
    have h2 : (key == k) = false := beq_eq_false_iff_ne.mpr (Ne.symm h)
    simp [dictInsert, dictLookup, h2]
  | cons kv rest ih =>
    obtain ⟨k1, v1⟩ := kv
    by_cases h1 : k1 = key
    · have h2 : (k1 == k) = false := beq_eq_false_iff_ne.mpr (fun he => h (he ▸ h1))
      simp [dictInsert, dictLookup, h1, h2, Ne.symm h]
    · by_cases h3 : k1 = k
      · simp [dictInsert, dictLookup, h1, h3, h, ih]
      · simp [dictInsert, dictLookup, h1, h3, ih]

theorem dictLookup_foldl_dictPop_none (k : String) :
    ∀ (l : List String) (d : Dict), dictLookup d k = none →
      dictLookup (l.foldl (fun d k => dictPop d k) d) k = none := by
  intro l
  induction l with
  | nil => intro d h; exact h
  | cons k1 rest ih =>
    intro d h
    simp only [List.foldl_cons]
    apply ih
    by_cases hk : k = k1
    · subst hk; exact dictLookup_dictPop_self d k
    · rw [dictLookup_dictPop_ne d k1 k hk]; exact h

theorem parse_updated_info_lookup_none (k : String) :
    ∀ (fk : List String) (info : Dict), k ∈ fk →
      dictLookup (parse_updated_info info fk) k = none := by
  intro fk
  induction fk with
  | nil => intro info hk; cases hk
  | cons k1 rest ih =>
    intro info hk
    unfold parse_updated_info
    simp only [List.foldl_cons]
    rcases List.mem_cons.mp hk with h | h
    · subst h
      exact dictLookup_foldl_dictPop_none k rest _ (dictLookup_dictPop_self info k)
    · exact ih (dictPop info k1) h

theorem dictLookup_dictMerge_of_none (k : String) :
    ∀ (b a : Dict), dictLookup b k = none →
      dictLookup (dictMerge a b) k = dictLookup a k := by
  intro b
  induction b with
  | nil => intro a _; rfl
  | cons kv rest ih =>
    intro a h
    obtain ⟨k1, v1⟩ := kv
    have h1 : (k1 == k) = false := by
      by_cases hc : k1 = k
      · simp [dictLookup, hc] at h
      · exact beq_eq_false_iff_ne.mpr hc
    have h2 : dictLookup rest k = none := by
      simpa [dictLookup, h1] using h
    have hmerge : dictMerge a ((k1, v1) :: rest) = dictMerge (dictInsert a k1 v1) rest := rfl
    rw [hmerge, ih (dictInsert a k1 v1) h2,
      dictLookup_dictInsert_ne a k1 k v1 (fun he => by simp [he] at h1)]

/-- Merging a payload stripped of a forbidden key leaves that key's stored
value unchanged. -/
theorem dictMerge_parse_preserves (d info : Dict) (fk : List String) (k : String)
    (hk : k ∈ fk) :
    dictLookup (dictMerge d (parse_updated_info info fk)) k = dictLookup d k :=
  dictLookup_dictMerge_of_none k _ d (parse_updated_info_lookup_none k fk info hk)

/-! ## Structural lemmas about the CRUD combinators -/

theorem getField_ok {d : Dict} {k : String} {v : JValue} (h : getField d k = .ok v) :
    dictLookup d k = some v := by
  unfold getField at h
  split at h
  · rename_i heq; rw [heq]; cases h; rfl
  · cases h

theorem getArr_ok {v : JValue} {xs : List JValue} (h : getArr v = .ok xs) :
    v = .arr xs := by
  cases v <;> simp [getArr] at h
  rw [h]

theorem withArrField_ok {d : Dict} {k : String} {g : List JValue → Except PyErr (List JValue)}
    {d2 : Dict} (h : withArrField d k g = .ok d2) :
    ∃ xs xs2, dictLookup d k = some (.arr xs) ∧ g xs = .ok xs2 ∧
      d2 = dictInsert d k (.arr xs2) := by
  unfold withArrField at h
  split at h
  · cases h
  · rename_i v hv
    split at h
    · cases h
    · rename_i xs hxs
      split at h
      · cases h
      · rename_i xs2 hg
        cases h
        exact ⟨xs, xs2, by rw [getField_ok hv, getArr_ok hxs], hg, rfl⟩

theorem mapMatching_forall2 {idv : JValue} {f : Dict → Except PyErr Dict} :
    ∀ {xs ys : List JValue}, mapMatching idv f xs = .ok ys →
      List.Forall₂ (fun x y => y = x ∨
        ∃ o o2, x = JValue.obj o ∧ f o = .ok o2 ∧ y = JValue.obj o2) xs ys := by
  intro xs
  induction xs with
  | nil =>
    intro ys h
    cases h
    exact List.Forall₂.nil
  | cons x rest ih =>
    intro ys h
    unfold mapMatching at h
    split at h
    · rename_i d
      split at h
      · cases h
      · rename_i xid hxid
        split at h
        · cases h
        · rename_i x2 hx2
          split at h
          · cases h
          · rename_i rest2 hrest
            cases h
            refine List.Forall₂.cons ?_ (ih hrest)
            by_cases hj : jeq xid idv = true
            · rw [if_pos hj] at hx2
              cases hf : f d with
              | error e => rw [hf] at hx2; cases hx2
              | ok o2 =>
                rw [hf] at hx2
                cases hx2
                exact Or.inr ⟨d, o2, rfl, hf, rfl⟩
            · rw [if_neg hj] at hx2
              cases hx2
              exact Or.inl rfl
    · cases h

theorem udci_go_forall2 :
    ∀ {xs : List JValue} {info : Dict} {ys : List JValue}, udci_go xs info = .ok ys →
      List.Forall₂ (fun x y => y = x ∨
        ∃ o p, x = JValue.obj o ∧ dictLookup p "id" = none ∧
          dictLookup p "createdAt" = none ∧ y = JValue.obj (dictMerge o p)) xs ys := by
  intro xs
  induction xs with
  | nil =>
    intro info ys h
    cases h
    exact List.Forall₂.nil
  | cons x rest ih =>
    intro info ys h
    unfold udci_go at h
    split at h
    · rename_i d
      split at h
      · cases h
      · rename_i cid hcid
        split at h
        · cases h
        · rename_i iid hiid
          split at h
          · dsimp only at h
            split at h
            · cases h
            · rename_i rest2 hrest
              cases h
              refine List.Forall₂.cons ?_ (ih hrest)
              refine Or.inr ⟨d, parse_updated_info info forbidden_keys_configuration_info,
                rfl, ?_, ?_, rfl⟩
              · exact parse_updated_info_lookup_none "id" _ info (by decide)
              · exact parse_updated_info_lookup_none "createdAt" _ info (by decide)
          · split at h
            · cases h
            · rename_i rest2 hrest
              cases h
              exact List.Forall₂.cons (Or.inl rfl) (ih hrest)
    · cases h

/-! ## Preservation helpers -/

theorem idFieldsPreserved_refl (v : JValue) : idFieldsPreserved v v := ⟨rfl, rfl⟩

theorem idFieldsPreserved_mergeNone {o p : Dict} (h1 : dictLookup p "id" = none)
    (h2 : dictLookup p "createdAt" = none) :
    idFieldsPreserved (.obj o) (.obj (dictMerge o p)) :=
  ⟨dictLookup_dictMerge_of_none "id" p o h1,
   dictLookup_dictMerge_of_none "createdAt" p o h2⟩

theorem idFieldsPreserved_merge_parse {o info : Dict} {fk : List String}
    (h1 : "id" ∈ fk) (h2 : "createdAt" ∈ fk) :
    idFieldsPreserved (.obj o) (.obj (dictMerge o (parse_updated_info info fk))) :=
  idFieldsPreserved_mergeNone (parse_updated_info_lookup_none "id" fk info h1)
    (parse_updated_info_lookup_none "createdAt" fk info h2)

theorem idFieldsPreserved_insert {o : Dict} {k : String} {v : JValue}
    (h1 : k ≠ "id") (h2 : k ≠ "createdAt") :
    idFieldsPreserved (.obj o) (.obj (dictInsert o k v)) :=
  ⟨dictLookup_dictInsert_ne o k "id" v (Ne.symm h1),
   dictLookup_dictInsert_ne o k "createdAt" v (Ne.symm h2)⟩

/-! ## Claim theorems -/

/-- C1: the claim states that when the mode disallows the needed
correction direction and the reading is outside the margin band,
`adjust_ph` performs no actuation and completes without raising.  The
code disagrees: `determine_pump` returns `None` (no pump is selected and
no flag is set), but the unpacking `pump, pump_pin = None` in
`adjust_ph` then raises `TypeError`.  Evaluated at mode `acidic`, target
7, margin 0.1, reading 5 (below target, outside the band). -/
theorem claimC1_adjust_ph_raises_on_disallowed_direction :
    determine_pump ctlAcidic 5 = none ∧
    adjust_ph ctlAcidic (.ok 5) = .error .typeError := by
  constructor
  · norm_num [determine_pump, ctlAcidic,
      show ¬("acidic" = "alkaline" ∨ "acidic" = "auto") from by decide]
  · norm_num [adjust_ph, read_ph, determine_pump, ctlAcidic,
      show ¬("acidic" = "alkaline" ∨ "acidic" = "auto") from by decide]

/-- C2: the claim states the pump pin is restored to the safe level 1
even when the sleep inside `activate_pump` raises.  The code's
`with gpio_lock:` block has no `try/finally`: when the sleep raises, the
final `gpio_write(pin, 1)` is skipped, the pin stays at level 0 (pump
on) and the exception propagates.  The normal path does restore level 1. -/
theorem claimC2_activate_pump_pin_left_on :
    activate_pump true 1 = (0, true) ∧
    activate_pump false 1 = (1, false) ∧
    (0 : Int) ≠ 1 :=
  ⟨rfl, rfl, by decide⟩

/-- C3: the claim states that a failed pH read is logged, `read_ph`
returns `None` without raising, and the tick loop continues.  The first
two conjuncts hold, and a failed read on the data-acquisition path does
let the loop continue (second conjunct: tick 5, interval 5, monitor
frequency 3 — the batch records `none` and the tick succeeds).  But a
failed read on the adjustment path (third conjunct: tick 0, both
cadences fire) makes `adjust_ph` compare `None` against the margin band,
raising `TypeError`, which propagates to `run_controllers`' `try` and
aborts the monitoring loop. -/
theorem claimC3_failed_read_aborts_adjust_tick :
    read_ph (.error ()) = none ∧
    run_controllers_tick 5 5 [(entryAuto, .error (), .ok 7)] = .ok [none] ∧
    run_controllers_tick 5 0 [(entryAuto, .ok 7, .error ())] = .error .typeError :=
  ⟨rfl, rfl, rfl⟩

/-- C4 (counterexample): the claim says the cadence is fixed by the first
`start` call of each experiment.  Concretely: first experiment starts
with interval 5, `stop_controllers` ends it, a second experiment starts
with interval 7 — but `stop_controllers` never clears the stored
attribute, so the stored interval is still 5, not 7. -/
theorem claimC4_counterexample_interval_survives_stop :
    (SensorManager.runOps SensorManager.init
        [.start 5, .stop, .start 7]).dataAquisitionInterval = some 5 ∧
    (5 : Int) ≠ 7 :=
  ⟨rfl, by decide⟩

/-- Any lifecycle operation preserves an already-set acquisition
interval. -/
theorem SensorManager.applyOp_interval (sm : SensorManager) (op : SMOp) (x : Int)
    (h : sm.dataAquisitionInterval = some x) :
    (sm.applyOp op).dataAquisitionInterval = some x := by
  cases op with
  | start i => simp [applyOp, SensorManager.start, h]
  | pause => simpa [applyOp, pause_controllers] using h
  | stop => simpa [applyOp, stop_controllers] using h

/-- An already-set acquisition interval survives any operation sequence. -/
theorem SensorManager.runOps_interval :
    ∀ (ops : List SMOp) (sm : SensorManager) (x : Int),
      sm.dataAquisitionInterval = some x →
      (sm.runOps ops).dataAquisitionInterval = some x := by
  intro ops
  induction ops with
  | nil => intro sm x h; exact h
  | cons op rest ih =>
    intro sm x h
    exact ih (sm.applyOp op) x (SensorManager.applyOp_interval sm op x h)

/-- C4 (amended): the acquisition interval is fixed by the first `start`
call in the `SensorManager`'s lifetime — every later operation,
including `stop_controllers` and the first `start` of a later
experiment, reuses the stored interval unchanged. -/
theorem claimC4_interval_fixed_by_first_start_ever (iv : Int) (ops : List SMOp) :
    (SensorManager.runOps (SensorManager.init.start iv) ops).dataAquisitionInterval
      = some iv :=
  SensorManager.runOps_interval ops (SensorManager.init.start iv) iv rfl

/-- C8: `stop_experiment` resets the experiment state to its initial
shape: duration 0, empty locations, empty logs, status `"ready"`. -/
theorem claimC8_stop_experiment_resets (h : ExperimentHandler) :
    dictLookup h.stop_experiment.experiment_data "duration" = some (.int 0) ∧
    dictLookup h.stop_experiment.experiment_data "locations" = some (.arr []) ∧
    dictLookup h.stop_experiment.experiment_data "logs" = some (.arr []) ∧
    dictLookup h.stop_experiment.experiment_data "status" = some (.str "ready") :=
  ⟨rfl, rfl, rfl, rfl⟩

/-- C9: `calculate_pump_time` is exactly
`min(|target − current| * 2, max_pump_time)`, hence bounded by
`max_pump_time`, and monotonically non-decreasing in `|target − current|`. -/
theorem claimC9_pump_time_bound_monotone (ctl : PHController) (c c1 c2 : ℚ)
    (h : |ctl.target_ph - c1| ≤ |ctl.target_ph - c2|) :
    calculate_pump_time ctl c = min (|ctl.target_ph - c| * 2) ctl.max_pump_time ∧
    calculate_pump_time ctl c ≤ ctl.max_pump_time ∧
    calculate_pump_time ctl c1 ≤ calculate_pump_time ctl c2 := by
  refine ⟨rfl, min_le_right _ _, ?_⟩
  exact min_le_min (mul_le_mul_of_nonneg_right h (by norm_num)) le_rfl

/-- The concrete difference-magnitude comparison used by the C9 witness. -/
theorem absDiffFact : |(7 : ℚ) - 13/2| ≤ |(7 : ℚ) - 5| := by
  have h1 : |(7:ℚ) - 13/2| = 1/2 := by
    rw [show (7:ℚ) - 13/2 = 1/2 from by norm_num]
    exact abs_of_pos (by norm_num)
  have h2 : |(7:ℚ) - 5| = 2 := by
    rw [show (7:ℚ) - 5 = 2 from by norm_num]
    exact abs_of_pos (by norm_num)
  rw [h1, h2]; norm_num

/-- C7: for an auto-mode controller (with a non-negative margin and the
physically mapped, hence non-zero, pump pins), the combined decision
step of `adjust_ph` performs no actuation when the reading is within the
margin band, and otherwise picks the alkaline pump iff the reading is
below target and the acidic pump iff it is above target. -/
theorem claimC7_auto_decision_symmetry (ctl : PHController) (current : ℚ)
    (hmode : ctl.mode = "auto") (hmargin : 0 ≤ ctl.margin)
    (halk : ctl.alkaline_pump_pin ≠ 0) (hac : ctl.acidic_pump_pin ≠ 0) :
    (|current - ctl.target_ph| ≤ ctl.margin → adjust_ph ctl (.ok current) = .ok none) ∧
    (ctl.margin < |current - ctl.target_ph| →
      ((pickedPump (adjust_ph ctl (.ok current)) = some "alkaline") ↔
        current < ctl.target_ph) ∧
      ((pickedPump (adjust_ph ctl (.ok current)) = some "acidic") ↔
        ctl.target_ph < current)) := by
  have hband_iff :
      (ctl.target_ph - ctl.margin ≤ current ∧ current ≤ ctl.target_ph + ctl.margin) ↔
      |current - ctl.target_ph| ≤ ctl.margin := by
    rw [abs_le]
    constructor
    · intro h; exact ⟨by linarith [h.1], by linarith [h.2]⟩
    · intro h; exact ⟨by linarith [h.1], by linarith [h.2]⟩
  constructor
  · intro hle
    simp only [adjust_ph, read_ph]
    rw [if_pos (hband_iff.mpr hle)]
  · intro hgt
    have hnband :
        ¬(ctl.target_ph - ctl.margin ≤ current ∧ current ≤ ctl.target_ph + ctl.margin) := by
      rw [hband_iff]; exact not_le.mpr hgt
    by_cases hct : current < ctl.target_ph
    · have hdet : determine_pump ctl current = some ("alkaline", ctl.alkaline_pump_pin) := by
        simp [determine_pump, hmode, hct]
      have hpin : (ctl.alkaline_pump_pin == 0) = false := beq_eq_false_iff_ne.mpr halk
      have hadj : adjust_ph ctl (.ok current) =
          .ok (some ("alkaline", ctl.alkaline_pump_pin, calculate_pump_time ctl current)) := by
        simp only [adjust_ph, read_ph]
        rw [if_neg hnband, hdet]
        simp [hpin]
      refine ⟨?_, ?_⟩
      · simp [pickedPump, hadj, hct]
      · simp only [pickedPump, hadj]
        constructor
        · intro h; simp at h
        · intro h; exact absurd hct (not_lt.mpr (le_of_lt h))
    · have htc : ctl.target_ph < current := by
        rcases lt_trichotomy current ctl.target_ph with h | h | h
        · exact absurd h hct
        · exfalso; rw [h] at hgt; simp at hgt; linarith
        · exact h
      have hdet : determine_pump ctl current = some ("acidic", ctl.acidic_pump_pin) := by
        simp [determine_pump, hmode, hct]
      have hpin : (ctl.acidic_pump_pin == 0) = false := beq_eq_false_iff_ne.mpr hac
      have hadj : adjust_ph ctl (.ok current) =
          .ok (some ("acidic", ctl.acidic_pump_pin, calculate_pump_time ctl current)) := by
        simp only [adjust_ph, read_ph]
        rw [if_neg hnband, hdet]
        simp [hpin]
      refine ⟨?_, ?_⟩
      · simp only [pickedPump, hadj]
        constructor
        · intro h; simp at h
        · intro h; exact absurd h hct
      · simp [pickedPump, hadj, htc]

/-- C7 witness: the auto controller at reading 7 (inside the band: no
actuation) — all hypotheses discharged at `ctlAuto`. -/
theorem claimC7_witness :
    ctlAuto.mode = "auto" ∧ (0 : ℚ) ≤ ctlAuto.margin ∧
    ctlAuto.alkaline_pump_pin ≠ 0 ∧ ctlAuto.acidic_pump_pin ≠ 0 ∧
    |(7 : ℚ) - ctlAuto.target_ph| ≤ ctlAuto.margin ∧
    adjust_ph ctlAuto (.ok 7) = .ok none := by
  refine ⟨rfl, by norm_num [ctlAuto], by decide, by decide, ?_, ?_⟩
  · show |(7 : ℚ) - 7| ≤ 1/10
    rw [sub_self, abs_zero]; norm_num
  · exact (claimC7_auto_decision_symmetry ctlAuto 7 rfl (by norm_num [ctlAuto])
      (by decide) (by decide)).1 (by rw [show ctlAuto.target_ph = 7 from rfl, sub_self, abs_zero]; norm_num [ctlAuto])

/-- C5: every update operation (device, configuration, location, sensor)
strips `id`/`createdAt` (and the structural child key) from the payload
before merging, so the updated record keeps its stored `id` and
`createdAt` — stated for the device record itself and, for the nested
operations, elementwise over every configuration / location / sensor
record of the resulting tree. -/
theorem claimC5_update_preserves_id_createdAt :
    (∀ cfg info : Dict,
      dictLookup (update_device_info cfg info) "id" = dictLookup cfg "id" ∧
      dictLookup (update_device_info cfg info) "createdAt" = dictLookup cfg "createdAt") ∧
    (∀ cfg info cfg2 : Dict, update_device_configuration_info cfg info = .ok cfg2 →
      configurationsPreserved idFieldsPreserved cfg cfg2) ∧
    (∀ (cfg data : Dict) (cid lid : JValue) (cfg2 : Dict),
      update_location_info cfg data cid lid = .ok cfg2 →
      configurationsPreserved
        (fun c c2 => idFieldsPreserved c c2 ∧
          childListPreserved "locations" idFieldsPreserved c c2) cfg cfg2) ∧
    (∀ (cfg data : Dict) (cid lid sid : JValue) (cfg2 : Dict),
      update_sensor_info cfg data cid lid sid = .ok cfg2 →
      configurationsPreserved
        (fun c c2 => idFieldsPreserved c c2 ∧
          childListPreserved "locations"
            (fun l l2 => idFieldsPreserved l l2 ∧
              childListPreserved "sensors" idFieldsPreserved l l2) c c2) cfg cfg2) := by
  refine ⟨?_, ?_, ?_, ?_⟩
  · intro cfg info
    exact ⟨dictMerge_parse_preserves cfg info forbidden_keys_info "id" (by decide),
           dictMerge_parse_preserves cfg info forbidden_keys_info "createdAt" (by decide)⟩
  · intro cfg info cfg2 h
    obtain ⟨xs, xs2, hxs, hg, rfl⟩ := withArrField_ok h
    refine ⟨xs, xs2, hxs, dictLookup_dictInsert_self _ _ _, ?_⟩
    refine (udci_go_forall2 hg).imp ?_
    rintro x y (rfl | ⟨o, p, rfl, h1, h2, rfl⟩)
    · exact idFieldsPreserved_refl _
    · exact idFieldsPreserved_mergeNone h1 h2
  · intro cfg data cid lid cfg2 h
    obtain ⟨xs, xs2, hxs, hg, rfl⟩ := withArrField_ok h
    refine ⟨xs, xs2, hxs, dictLookup_dictInsert_self _ _ _, ?_⟩
    refine (mapMatching_forall2 hg).imp ?_
    rintro x y (rfl | ⟨o, o2, rfl, hf, rfl⟩)
    · refine ⟨idFieldsPreserved_refl _, ?_⟩
      intro as bs ha hb
      rw [ha] at hb
      obtain rfl : as = bs := by injection hb with hb2; injection hb2
      exact List.forall₂_same.mpr fun v _ => idFieldsPreserved_refl v
    · obtain ⟨ls, ls2, hls, hg2, rfl⟩ := withArrField_ok hf
      refine ⟨idFieldsPreserved_insert (by decide) (by decide), ?_⟩
      intro as bs ha hb
      have ha2 : dictLookup o "locations" = some (.arr as) := ha
      have hb2 : dictLookup (dictInsert o "locations" (.arr ls2)) "locations"
          = some (.arr bs) := hb
      rw [hls] at ha2
      rw [dictLookup_dictInsert_self] at hb2
      obtain rfl : ls = as := by injection ha2 with h3; injection h3
      obtain rfl : ls2 = bs := by injection hb2 with h3; injection h3
      refine (mapMatching_forall2 hg2).imp ?_
      rintro l l2 (rfl | ⟨oo, oo2, rfl, hff, rfl⟩)
      · exact idFieldsPreserved_refl _
      · cases hff
        exact idFieldsPreserved_merge_parse (by decide) (by decide)
  · intro cfg data cid lid sid cfg2 h
    unfold update_sensor_info at h
    split at h
    · cases h
    · obtain ⟨xs, xs2, hxs, hg, rfl⟩ := withArrField_ok h
      refine ⟨xs, xs2, hxs, dictLookup_dictInsert_self _ _ _, ?_⟩
      refine (mapMatching_forall2 hg).imp ?_
      rintro x y (rfl | ⟨o, o2, rfl, hf, rfl⟩)
      · refine ⟨idFieldsPreserved_refl _, ?_⟩
        intro as bs ha hb
        rw [ha] at hb
        obtain rfl : as = bs := by injection hb with hb2; injection hb2
        refine List.forall₂_same.mpr fun v _ => ⟨idFieldsPreserved_refl v, ?_⟩
        intro ss ss2 hs hs2
        rw [hs] at hs2
        obtain rfl : ss = ss2 := by injection hs2 with h3; injection h3
        exact List.forall₂_same.mpr fun w _ => idFieldsPreserved_refl w
      · obtain ⟨ls, ls2, hls, hg2, rfl⟩ := withArrField_ok hf
        refine ⟨idFieldsPreserved_insert (by decide) (by decide), ?_⟩
        intro as bs ha hb
        have ha2 : dictLookup o "locations" = some (.arr as) := ha
        have hb2 : dictLookup (dictInsert o "locations" (.arr ls2)) "locations"
            = some (.arr bs) := hb
        rw [hls] at ha2
        rw [dictLookup_dictInsert_self] at hb2
        obtain rfl : ls = as := by injection ha2 with h3; injection h3
        obtain rfl : ls2 = bs := by injection hb2 with h3; injection h3
        refine (mapMatching_forall2 hg2).imp ?_
        rintro l l2 (rfl | ⟨oo, oo2, rfl, hff, rfl⟩)
        · refine ⟨idFieldsPreserved_refl _, ?_⟩
          intro ss ss2 hs hs2
          rw [hs] at hs2
          obtain rfl : ss = ss2 := by injection hs2 with h3; injection h3
          exact List.forall₂_same.mpr fun w _ => idFieldsPreserved_refl w
        · obtain ⟨ss, ss2, hss, hg3, rfl⟩ := withArrField_ok hff
          refine ⟨idFieldsPreserved_insert (by decide) (by decide), ?_⟩
          intro cs cs2 hc hc2
          have hc3 : dictLookup oo "sensors" = some (.arr cs) := hc
          have hc4 : dictLookup (dictInsert oo "sensors" (.arr ss2)) "sensors"
              = some (.arr cs2) := hc2
          rw [hss] at hc3
          rw [dictLookup_dictInsert_self] at hc4
          obtain rfl : ss = cs := by injection hc3 with h3; injection h3
          obtain rfl : ss2 = cs2 := by injection hc4 with h3; injection h3
          refine (mapMatching_forall2 hg3).imp ?_
          rintro s s2 (rfl | ⟨so, so2, rfl, hsf, rfl⟩)
          · exact idFieldsPreserved_refl _
          · cases hsf
            exact idFieldsPreserved_merge_parse (by decide) (by decide)

/-- C5 witness: all four update operations evaluated on the concrete
device tree `devW`, each with a payload carrying forbidden fields. -/
theorem claimC5_witness :
    (dictLookup (update_device_info devW infoDevW) "id" = dictLookup devW "id" ∧
     dictLookup (update_device_info devW infoDevW) "createdAt"
       = dictLookup devW "createdAt") ∧
    configurationsPreserved idFieldsPreserved devW
      (okOr (update_device_configuration_info devW infoConfW) []) ∧
    configurationsPreserved
      (fun c c2 => idFieldsPreserved c c2 ∧
        childListPreserved "locations" idFieldsPreserved c c2) devW
      (okOr (update_location_info devW infoLocW (.str "c1") (.str "l1")) []) ∧
    configurationsPreserved
      (fun c c2 => idFieldsPreserved c c2 ∧
        childListPreserved "locations"
          (fun l l2 => idFieldsPreserved l l2 ∧
            childListPreserved "sensors" idFieldsPreserved l l2) c c2) devW
      (okOr (update_sensor_info devW infoSenW (.str "c1") (.str "l1") (.str "s1")) []) :=
  ⟨claimC5_update_preserves_id_createdAt.1 devW infoDevW,
   claimC5_update_preserves_id_createdAt.2.1 devW infoConfW _
     (by simp [update_device_configuration_info, withArrField, getField, getArr, udci_go,
       dictLookup, devW, infoConfW, confW, jeq, parse_updated_info,
       forbidden_keys_configuration_info, dictPop, dictMerge, dictInsert, okOr]),
   claimC5_update_preserves_id_createdAt.2.2.1 devW infoLocW (.str "c1") (.str "l1") _
     (by simp [update_location_info, update_location_in_conf, withArrField, getField,
       getArr, mapMatching, dictLookup, devW, infoLocW, confW, locW, jeq,
       parse_updated_info, forbidden_keys_location_info, dictPop, dictMerge, dictInsert,
       okOr, Except.map]),
   claimC5_update_preserves_id_createdAt.2.2.2 devW infoSenW
     (.str "c1") (.str "l1") (.str "s1") _
     (by simp [update_sensor_info, update_sensor_in_conf, update_sensor_in_loc,
         withArrField, getField, getArr, mapMatching, dictLookup, devW, infoSenW, confW,
         locW, senW, jeq, parse_updated_info, forbidden_keys_sensor_info, dictPop,
         dictMerge, dictInsert, okOr, Except.map, validate_sensor, isStrField,
         isNumField, isIntField, numField] <;> norm_num)⟩

/-- C6: a device already holding 3 configurations rejects a new one with
the `report_error` `ValueError` (and, the operation having raised before
the append, the stored list is untouched); and whenever `add` succeeds
starting from at most 3 stored configurations, the stored count stays
at most 3. -/
theorem claimC6_configuration_cap (cfg data : Dict) (cs : List JValue)
    (hcs : dictLookup cfg "configurations" = some (.arr cs)) :
    (cs.length = 3 → add_device_configuration cfg data =
      .error (.valueError
        "You reached the maximum number of configurations on this device")) ∧
    (∀ (cfg2 : Dict) (cs2 : List JValue), cs.length ≤ 3 →
      add_device_configuration cfg data = .ok cfg2 →
      dictLookup cfg2 "configurations" = some (.arr cs2) → cs2.length ≤ 3) := by
  have hgf : getField cfg "configurations" = .ok (.arr cs) := by
    unfold getField; rw [hcs]
  constructor
  · intro h3
    unfold add_device_configuration withArrField
    rw [hgf]
    simp [getArr, h3]
  · intro cfg2 cs2 hle h hlk2
    obtain ⟨xs, xs2, hxs, hg, rfl⟩ := withArrField_ok h
    rw [hcs] at hxs
    obtain rfl : cs = xs := by injection hxs with h3; injection h3
    by_cases h3 : (cs.length == 3) = true
    · rw [if_pos h3] at hg; cases hg
    · rw [if_neg h3] at hg
      split at hg
      · cases hg
      · cases hg
        rw [dictLookup_dictInsert_self] at hlk2
        obtain rfl : cs ++ [.obj data] = cs2 := by injection hlk2 with h4; injection h4
        have hne : cs.length ≠ 3 := by simpa using h3
        simp only [List.length_append, List.length_singleton]
        omega

/-- C6 witness: the three-configuration device `dev3W` rejects `confNewW`
with the exact error, and adding to the one-configuration device `devW`
keeps the stored count at most 3. -/
theorem claimC6_witness :
    add_device_configuration dev3W confNewW =
      .error (.valueError
        "You reached the maximum number of configurations on this device") ∧
    (configsOf (okOr (add_device_configuration devW confNewW) [])).length ≤ 3 :=
  ⟨(claimC6_configuration_cap dev3W confNewW [.obj confW, .obj confW, .obj confW]
      rfl).1 rfl,
   (claimC6_configuration_cap devW confNewW [.obj confW] rfl).2
     (okOr (add_device_configuration devW confNewW) [])
     (configsOf (okOr (add_device_configuration devW confNewW) []))
     (by simp)
     (by simp [add_device_configuration, withArrField, getField, getArr, dictLookup,
       devW, confNewW, validate_device_configuration, validate_location, dictContains,
       dictInsert, okOr])
     (by simp [configsOf, add_device_configuration, withArrField, getField, getArr,
       dictLookup, devW, confNewW, validate_device_configuration, validate_location,
       dictContains, dictInsert, okOr])⟩

/-- C10: every sensor stored through `add_sensor` is the payload with
`targetPh` replaced by its Python `int(...)` truncation (so the stored
`targetPh` is an integer and the stored record still passes validation),
appended to the matching locations' sensor lists; meanwhile the
validator itself accepts the non-integer `targetPh = 7.5` (`senFracW`),
whose truncation is `7`. -/
theorem claimC10_add_sensor_integer_targetPh :
    (∀ (cfg data : Dict) (cid lid : JValue) (cfg2 : Dict) (v : JValue) (n : Int),
      dictLookup data "targetPh" = some v → pyToInt v = .ok n →
      add_sensor cfg data cid lid = .ok cfg2 →
      dictLookup (dictMerge data [("targetPh", JValue.int n)]) "targetPh"
        = some (.int n) ∧
      validate_sensor (dictMerge data [("targetPh", JValue.int n)]) = true ∧
      configurationsPreserved
        (confSensorAppended (dictMerge data [("targetPh", JValue.int n)])) cfg cfg2) ∧
    (dictLookup senFracW "targetPh" = some (.float (15/2)) ∧
     validate_sensor senFracW = true ∧
     (∀ m : Int, (15 : ℚ)/2 ≠ (m : ℚ)) ∧
     pyToInt (.float (15/2)) = .ok 7) := by
  constructor
  · intro cfg data cid lid cfg2 v n hv hn h
    unfold add_sensor at h
    rw [show getField data "targetPh" = .ok v from by unfold getField; rw [hv]] at h
    dsimp only at h
    rw [hn] at h
    dsimp only at h
    split at h
    · cases h
    · rename_i hval
      have hval2 : validate_sensor (dictMerge data [("targetPh", JValue.int n)]) = true := by
        revert hval
        cases validate_sensor (dictMerge data [("targetPh", JValue.int n)]) <;> simp
      obtain ⟨xs, xs2, hxs, hg, rfl⟩ := withArrField_ok h
      refine ⟨?_, hval2, xs, xs2, hxs, dictLookup_dictInsert_self _ _ _, ?_⟩
      · rw [show dictMerge data [("targetPh", JValue.int n)]
            = dictInsert data "targetPh" (.int n) from rfl,
          dictLookup_dictInsert_self]
      · refine (mapMatching_forall2 hg).imp ?_
        rintro x y (rfl | ⟨o, o2, rfl, hf, rfl⟩)
        · exact Or.inl rfl
        · obtain ⟨ls, ls2, hls, hg2, rfl⟩ := withArrField_ok hf
          refine Or.inr ⟨ls, ls2, hls, dictLookup_dictInsert_self _ _ _, ?_⟩
          refine (mapMatching_forall2 hg2).imp ?_
          rintro l l2 (rfl | ⟨oo, oo2, rfl, hff, rfl⟩)
          · exact Or.inl rfl
          · obtain ⟨ss, ss2, hss, hg3, rfl⟩ := withArrField_ok hff
            cases hg3
            exact Or.inr ⟨ss, hss, dictLookup_dictInsert_self _ _ _⟩
  · refine ⟨rfl, ?_, ?_, ?_⟩
    · simp [validate_sensor, senFracW, isStrField, isNumField, isIntField, numField,
        dictLookup]
      norm_num
    · intro m hm
      have h2 : (15 : ℚ) = (m : ℚ) * 2 := by
        rw [div_eq_iff (by norm_num : (2:ℚ) ≠ 0)] at hm
        exact hm
      have h3 : (15 : Int) = m * 2 := by exact_mod_cast h2
      omega
    · norm_num [pyToInt]

/-- C10 witness: `add_sensor` of the fractional-target payload `senFracW`
into the device tree `devW`, with the truncated integer target 7. -/
theorem claimC10_witness :
    dictLookup (dictMerge senFracW [("targetPh", JValue.int 7)]) "targetPh"
      = some (.int 7) ∧
    validate_sensor (dictMerge senFracW [("targetPh", JValue.int 7)]) = true ∧
    configurationsPreserved
      (confSensorAppended (dictMerge senFracW [("targetPh", JValue.int 7)])) devW
      (okOr (add_sensor devW senFracW (.str "c1") (.str "l1")) []) :=
  claimC10_add_sensor_integer_targetPh.1 devW senFracW (.str "c1") (.str "l1") _
    (.float (15/2)) 7 rfl (by norm_num [pyToInt])
    (by simp [add_sensor, add_sensor_in_conf, add_sensor_in_loc, withArrField, getField,
        getArr, mapMatching, dictLookup, devW, senFracW, confW, locW, jeq, pyToInt,
        dictMerge, dictInsert, okOr, Except.map, validate_sensor, isStrField, isNumField,
        isIntField, numField] <;> norm_num)

theorem claimC9_witness :
    |ctlAuto.target_ph - 13/2| ≤ |ctlAuto.target_ph - 5| ∧
    calculate_pump_time ctlAuto (13/2) ≤ calculate_pump_time ctlAuto 5 :=
  ⟨absDiffFact, (claimC9_pump_time_bound_monotone ctlAuto 5 (13/2) 5 absDiffFact).2.2⟩

end PhCtrl


